import Mathlib

/-!
Shallow embedding of the BreathLead monophonic breath-instrument DSP core
(`src/src/dsp/BreathLeadDSP.cpp`, `src/src/voice/BreathLeadVoice.cpp`).

Floating-point values are modelled as rationals.  Transcendental kernels
(`std::exp`, `std::sin`, `std::pow`, `std::log2`) and the JUCE filter
coefficient/State-Variable-TPT process routines are gathered in an `Env`
record that theorems quantify over; the control flow, all constants, all
clamping, the envelope rule, the smoothers and the per-sample pipeline are
translated directly from the source.
-/

/-- `std::clamp(v, lo, hi)`: `v < lo ? lo : hi < v ? hi : v`. -/
def clampQ (v lo hi : ℚ) : ℚ :=
  if v < lo then lo else if hi < v then hi else v

/-- Second-order IIR coefficients (normalised, `a0 = 1`) as produced by
`juce::dsp::IIR::Coefficients<float>::makeHighPass/makeLowPass`. -/
structure IIRCoeffs where
  b0 : ℚ
  b1 : ℚ
  b2 : ℚ
  a1 : ℚ
  a2 : ℚ

/-- Abstract numeric kernels: transcendental library functions used by the
source, the JUCE filter-design routines, and the `SoftLimiter` curve (whose
header is not in `src/`; the spec leaves its exact shape an implementation
choice). `sin2pi x` stands for `std::sin(x * 2π)`, `pow2 x` for
`std::pow(2, x)`, `pow10 x` for `std::pow(10, x)`. -/
structure Env where
  exp : ℚ → ℚ
  sin2pi : ℚ → ℚ
  pow2 : ℚ → ℚ
  log2 : ℚ → ℚ
  pow10 : ℚ → ℚ
  softLimit : ℚ → ℚ
  makeHighPass : ℚ → ℚ → IIRCoeffs
  makeLowPass : ℚ → ℚ → IIRCoeffs
  svfProcess : ℚ → ℚ → ℚ → ℚ → ℚ → ℚ × ℚ × ℚ

/-- `juce::SmoothedValue<float>` (linear): current value, target, per-step
increment, remaining steps of the active ramp, and the configured ramp
length in steps. -/
structure Smoothed where
  cur : ℚ
  target : ℚ
  step : ℚ
  countdown : ℕ
  rampSteps : ℕ

/-- `SmoothedValue::reset(sampleRate, rampLengthInSeconds)`:
`stepsToTarget = floor(seconds * sampleRate)` then
`setCurrentAndTargetValue(target)`. -/
def Smoothed.reset (s : Smoothed) (sr secs : ℚ) : Smoothed :=
  { cur := s.target, target := s.target, step := s.step,
    countdown := 0, rampSteps := (⌊sr * secs⌋).toNat }

/-- `SmoothedValue::setTargetValue`: no-op when the target is unchanged;
jump when the ramp length is zero; otherwise restart the ramp with a linear
step toward the new target. -/
def Smoothed.setTargetValue (s : Smoothed) (v : ℚ) : Smoothed :=
  if v = s.target then s
  else if s.rampSteps = 0 then
    { s with cur := v, target := v, countdown := 0 }
  else
    { s with target := v, countdown := s.rampSteps,
             step := (v - s.cur) / (s.rampSteps : ℚ) }

/-- `SmoothedValue::getNextValue`: return the target once the countdown has
expired, otherwise advance one linear step (landing exactly on the target
at the last step). -/
def Smoothed.getNextValue (s : Smoothed) : ℚ × Smoothed :=
  if s.countdown = 0 then (s.target, { s with cur := s.target })
  else
    let cd := s.countdown - 1
    let cur1 := if cd = 0 then s.target else s.cur + s.step
    (cur1, { s with cur := cur1, countdown := cd })

/-- Modelled from the spec: `MotionEnergyEstimator` (its header is not in
`src/`).  Per §4.3 `process(currentValue, sensitivity)` returns a bounded
non-negative energy estimate derived from the rate of change of the input,
scaled by the sensitivity, and smoothed (one-pole) so rapid oscillation
does not spike; state is the previous input and the smoothed energy. -/
structure MotionEst where
  prev : ℚ
  energy : ℚ

/-- Modelled from the spec: one estimator step — rate of change
`|v - prev|` scaled by the sensitivity, folded into a smoothed energy that
is kept inside `[0, 1]` (bounded, non-negative). -/
def MotionEst.process (m : MotionEst) (v sens : ℚ) : ℚ × MotionEst :=
  let d := |v - m.prev| * sens
  let e := clampQ ((1/2) * m.energy + d) 0 1
  (e, ⟨v, e⟩)

/-- Modelled from the spec: estimator reset — all state cleared. -/
def MotionEst.reset : MotionEst := ⟨0, 0⟩

/-- Modelled from the spec: `NoiseGen` (its header is not in `src/`).  A
single seeded deterministic generator (§4.2) producing white noise and,
from the same stream, pink noise through a fixed low-order shaping filter
with magnitude compensation. -/
structure NoiseGen where
  s : ℕ
  b : ℚ

/-- Modelled from the spec: 32-bit linear congruential step of the seeded
generator. -/
def lcgStep (s : ℕ) : ℕ := (1664525 * s + 1013904223) % 4294967296

/-- Modelled from the spec: `NoiseGen::reset(seed)` — reseed and clear the
pink shaping state. -/
def NoiseGen.reset (seed : ℕ) : NoiseGen := ⟨seed % 4294967296, 0⟩

/-- Modelled from the spec: one white-noise sample in `[-1, 1)` drawn from
the seeded generator. -/
def NoiseGen.nextWhite (g : NoiseGen) : ℚ × NoiseGen :=
  let s1 := lcgStep g.s
  ((s1 : ℚ) / 2147483648 - 1, ⟨s1, g.b⟩)

/-- Modelled from the spec: one pink-noise sample — a fresh white draw fed
through a one-pole shaping filter with magnitude compensation. -/
def NoiseGen.nextPink (g : NoiseGen) : ℚ × NoiseGen :=
  let s1 := lcgStep g.s
  let w := (s1 : ℚ) / 2147483648 - 1
  let b1 := (9/10) * g.b + (1/10) * w
  (3 * b1, ⟨s1, b1⟩)

/-- `juce::dsp::IIR::Filter<float>` with second-order coefficients:
transposed-direct-form-II state registers plus the coefficient record. -/
structure IIRFilt where
  coeffs : IIRCoeffs
  s1 : ℚ
  s2 : ℚ

/-- JUCE IIR `processSample` (order 2, transposed direct form II):
`y = b0*x + s1; s1 = b1*x - a1*y + s2; s2 = b2*x - a2*y`. -/
def IIRFilt.processSample (f : IIRFilt) (x : ℚ) : ℚ × IIRFilt :=
  let c := f.coeffs
  let y := c.b0 * x + f.s1
  (y, { f with s1 := c.b1 * x - c.a1 * y + f.s2, s2 := c.b2 * x - c.a2 * y })

/-- `juce::dsp::StateVariableTPTFilter<float>` in bandpass mode: the cutoff
and resonance set per sample plus the two integrator state registers. -/
structure SVF where
  cutoff : ℚ
  res : ℚ
  s1 : ℚ
  s2 : ℚ

/-- One SVF sample: the tan-based TPT update is supplied by the
environment; the filter threads its two state registers through it. -/
def SVF.processSample (E : Env) (f : SVF) (x : ℚ) : ℚ × SVF :=
  let r := E.svfProcess f.cutoff f.res f.s1 f.s2 x
  (r.1, { f with s1 := r.2.1, s2 := r.2.2 })

/-- The asymmetric one-pole breath-envelope update of
`BreathLeadDSP::render` (lines 163-164):
`coeff = target > current ? attackCoeff : releaseCoeff;`
`current = target + coeff * (current - target)`. -/
def envStep (envA envR target cur : ℚ) : ℚ :=
  let coeff := if target > cur then envA else envR
  target + coeff * (cur - target)

/-- Per-voice mutable state of `BreathLeadDSP` (member variables; the
header is not in `src/`, members and their use are taken from the `.cpp`).
The sine-anchor oscillator phase is deliberately NOT a field: in the
source it is a function-local `static float oscPhase` inside `render`,
shared by every instance and unreachable from `reset`/`prepare`; it is
threaded separately through the render functions below. -/
structure BreathLeadDSP where
  sr : ℚ
  gate : Bool
  phase : ℚ
  env : ℚ
  pitchHz : ℚ
  velocity : ℚ
  modWheel : ℚ
  aftertouch : ℚ
  pitchBend : ℚ
  motionSustainEnabled : Bool
  envA : ℚ
  envR : ℚ
  pitchBP : SVF
  form1BP : SVF
  form2BP : SVF
  hp : IIRFilt
  lp : IIRFilt
  noise : NoiseGen
  meMW : MotionEst
  meAT : MotionEst
  mePB : MotionEst
  mePitch : MotionEst
  airS : Smoothed
  toneS : Smoothed
  formantS : Smoothed
  resistS : Smoothed
  vibrDepthS : Smoothed
  vibrRateS : Smoothed
  noiseColorS : Smoothed
  sineAnchorS : Smoothed
  motionSensS : Smoothed
  outGainS : Smoothed

/-- `dbToLin(db) = pow(10, db / 20)`. -/
def dbToLin (E : Env) (db : ℚ) : ℚ := E.pow10 (db / 20)

/-- `BreathLeadDSP::coeffFromMs`: `tau = max(0.0001, ms/1000)`;
`exp(-1 / (tau * sr))`. -/
def coeffFromMs (E : Env) (sr ms : ℚ) : ℚ :=
  let tau := max (1/10000) (ms / 1000)
  E.exp (-(1 / (tau * sr)))

/-- `BreathLeadDSP::midiToHzClamp`: clamp to `[20, 12000]` Hz. -/
def midiToHzClamp (hz : ℚ) : ℚ := clampQ hz 20 12000

/-- `BreathLeadDSP::setPitchHz`. -/
def BreathLeadDSP.setPitchHz (d : BreathLeadDSP) (hz : ℚ) : BreathLeadDSP :=
  { d with pitchHz := midiToHzClamp hz }

/-- `BreathLeadDSP::setGate`. -/
def BreathLeadDSP.setGate (d : BreathLeadDSP) (isOn : Bool) : BreathLeadDSP :=
  { d with gate := isOn }

/-- `BreathLeadDSP::setVelocity`: clamp to `[0, 1]`. -/
def BreathLeadDSP.setVelocity (d : BreathLeadDSP) (vel01 : ℚ) : BreathLeadDSP :=
  { d with velocity := clampQ vel01 0 1 }

/-- `BreathLeadDSP::setModWheel`: clamp to `[0, 1]`. -/
def BreathLeadDSP.setModWheel (d : BreathLeadDSP) (mw01 : ℚ) : BreathLeadDSP :=
  { d with modWheel := clampQ mw01 0 1 }

/-- `BreathLeadDSP::setAftertouch`: clamp to `[0, 1]`. -/
def BreathLeadDSP.setAftertouch (d : BreathLeadDSP) (at01 : ℚ) : BreathLeadDSP :=
  { d with aftertouch := clampQ at01 0 1 }

/-- `BreathLeadDSP::setPitchBendNorm`: clamp to `[-1, 1]`. -/
def BreathLeadDSP.setPitchBendNorm (d : BreathLeadDSP) (pbNorm : ℚ) : BreathLeadDSP :=
  { d with pitchBend := clampQ pbNorm (-1) 1 }

/-- The full parameter set taken by `BreathLeadDSP::setParams`. -/
structure ParamSet where
  air : ℚ
  tone : ℚ
  formant : ℚ
  resistance : ℚ
  vibrDepth : ℚ
  vibrRateHz : ℚ
  noiseColor : ℚ
  sineAnchor : ℚ
  motionSustain : Bool
  motionSensitivity : ℚ
  attackMs : ℚ
  releaseMs : ℚ
  outputGainDb : ℚ

/-- `BreathLeadDSP::setParams`: clamp every control to its documented
domain, retarget the smoothers, recompute the envelope coefficients with
floored attack/release times and convert the output gain from dB. -/
def BreathLeadDSP.setParams (E : Env) (d : BreathLeadDSP) (p : ParamSet) : BreathLeadDSP :=
  { d with
    airS := d.airS.setTargetValue (clampQ p.air 0 1),
    toneS := d.toneS.setTargetValue (clampQ p.tone 0 1),
    formantS := d.formantS.setTargetValue (clampQ p.formant 0 1),
    resistS := d.resistS.setTargetValue (clampQ p.resistance 0 1),
    vibrDepthS := d.vibrDepthS.setTargetValue (clampQ p.vibrDepth 0 1),
    vibrRateS := d.vibrRateS.setTargetValue (clampQ p.vibrRateHz (1/2) 8),
    noiseColorS := d.noiseColorS.setTargetValue (clampQ p.noiseColor 0 1),
    sineAnchorS := d.sineAnchorS.setTargetValue (clampQ p.sineAnchor 0 1),
    motionSustainEnabled := p.motionSustain,
    motionSensS := d.motionSensS.setTargetValue (clampQ p.motionSensitivity 0 1),
    envA := coeffFromMs E d.sr (max 1 p.attackMs),
    envR := coeffFromMs E d.sr (max 5 p.releaseMs),
    outGainS := d.outGainS.setTargetValue (dbToLin E p.outputGainDb) }

/-- `BreathLeadDSP::reset`: close the gate and zero the running state of
the object — envelope, vibrato phase, all filter registers, all motion
estimators.  (The sine-anchor oscillator phase is a function-local static
in the source and is not reachable from here.) -/
def BreathLeadDSP.reset (d : BreathLeadDSP) : BreathLeadDSP :=
  { d with
    gate := false, phase := 0, env := 0,
    pitchBP := { d.pitchBP with s1 := 0, s2 := 0 },
    form1BP := { d.form1BP with s1 := 0, s2 := 0 },
    form2BP := { d.form2BP with s1 := 0, s2 := 0 },
    hp := { d.hp with s1 := 0, s2 := 0 },
    lp := { d.lp with s1 := 0, s2 := 0 },
    meMW := MotionEst.reset, meAT := MotionEst.reset,
    mePB := MotionEst.reset, mePitch := MotionEst.reset }

/-- `BreathLeadDSP::prepare`: store the sample rate, reset and re-prepare
the filters, install safe initial high/low-pass coefficients, reseed the
noise generator with the fixed constant `0x12345678`, reset the motion
estimators, configure every smoother ramp (20 ms for air/tone/formant/
resistance, 50 ms for the rest), then `reset()`.  `samplesPerBlock` and
`numChannels` only populate the JUCE `ProcessSpec` and have no observable
effect on the modelled state. -/
def BreathLeadDSP.prepare (E : Env) (d : BreathLeadDSP) (sampleRate : ℚ)
    (samplesPerBlock numChannels : ℤ) : BreathLeadDSP :=
  let d1 : BreathLeadDSP :=
    { d with
      sr := sampleRate,
      pitchBP := { d.pitchBP with s1 := 0, s2 := 0 },
      form1BP := { d.form1BP with s1 := 0, s2 := 0 },
      form2BP := { d.form2BP with s1 := 0, s2 := 0 },
      hp := { coeffs := E.makeHighPass sampleRate 60, s1 := 0, s2 := 0 },
      lp := { coeffs := E.makeLowPass sampleRate 14000, s1 := 0, s2 := 0 },
      noise := NoiseGen.reset 305419896,
      meMW := MotionEst.reset, meAT := MotionEst.reset,
      mePB := MotionEst.reset, mePitch := MotionEst.reset,
      airS := d.airS.reset sampleRate (1/50),
      toneS := d.toneS.reset sampleRate (1/50),
      formantS := d.formantS.reset sampleRate (1/50),
      resistS := d.resistS.reset sampleRate (1/50),
      vibrDepthS := d.vibrDepthS.reset sampleRate (1/20),
      vibrRateS := d.vibrRateS.reset sampleRate (1/20),
      noiseColorS := d.noiseColorS.reset sampleRate (1/20),
      sineAnchorS := d.sineAnchorS.reset sampleRate (1/20),
      motionSensS := d.motionSensS.reset sampleRate (1/20),
      outGainS := d.outGainS.reset sampleRate (1/20) }
  d1.reset

/-- The motion-energy block of `BreathLeadDSP::render` (lines 140-149):
when motion sustain is enabled, feed the four estimators (mod wheel,
aftertouch, pitch bend, and the pitch cue `hz / 2000`) and combine
`min(1, eMW + eAT + ePB + 0.5 * eP)`; when disabled the energy is `0` and
the estimators are not advanced. -/
def motionEnergy (st : BreathLeadDSP) (motionSens hz : ℚ) :
    ℚ × MotionEst × MotionEst × MotionEst × MotionEst :=
  if st.motionSustainEnabled then
    let r1 := st.meMW.process st.modWheel motionSens
    let r2 := st.meAT.process st.aftertouch motionSens
    let r3 := st.mePB.process st.pitchBend motionSens
    let r4 := st.mePitch.process (hz / 2000) motionSens
    (min 1 (r1.1 + r2.1 + r3.1 + (1/2) * r4.1), r1.2, r2.2, r3.2, r4.2)
  else (0, st.meMW, st.meAT, st.mePB, st.mePitch)

/-- One sample of `BreathLeadDSP::render` before the final hard clamp
(lines 116-230): smooth every parameter, advance vibrato, form the pitch
with bend and vibrato, compute the optional motion energy, update the
breath envelope, draw white and pink noise, advance the (static)
sine-anchor oscillator phase, form the excitation, retune and run the
three bandpass resonators, retune and run the tone-tilt high/low-pass
pair, saturate and apply the smoothed output gain.  Returns the unclamped
sample, the updated object state and the updated static oscillator
phase. -/
def renderPre (E : Env) (st : BreathLeadDSP) (oscPhase : ℚ) : ℚ × BreathLeadDSP × ℚ :=
  let airP := st.airS.getNextValue
  let air := airP.1
  let toneP := st.toneS.getNextValue
  let tone := toneP.1
  let formP := st.formantS.getNextValue
  let form := formP.1
  let resistP := st.resistS.getNextValue
  let resist := resistP.1
  let vibrDepthP := st.vibrDepthS.getNextValue
  let vibrDepth := vibrDepthP.1
  let vibrRateP := st.vibrRateS.getNextValue
  let vibrRate := vibrRateP.1
  let noiseColorP := st.noiseColorS.getNextValue
  let noiseColor := noiseColorP.1
  let sineAnchorP := st.sineAnchorS.getNextValue
  let sineAnchor := sineAnchorP.1
  let motionSensP := st.motionSensS.getNextValue
  let motionSens := motionSensP.1
  let outGainP := st.outGainS.getNextValue
  let outGain := outGainP.1
  let vibr := E.sin2pi st.phase * vibrDepth
  let vibRateNorm := vibrRate / st.sr
  let phase1 := st.phase + vibRateNorm
  let phase2 := if phase1 ≥ 1 then phase1 - 1 else phase1
  let bendSemis := 2 * st.pitchBend
  let pitchMul := E.pow2 ((bendSemis + vibr * (35/100)) / 12)
  let hz := midiToHzClamp (st.pitchHz * pitchMul)
  let me := motionEnergy st motionSens hz
  let motionE := me.1
  let pressureTarget :=
    if st.gate then
      clampQ ((20/100 + (80/100) * st.velocity) * (55/100)
                + st.modWheel * (75/100) + motionE * (60/100)) 0 1
    else 0
  let env1 := envStep st.envA st.envR pressureTarget st.env
  let wP := st.noise.nextWhite
  let w := wP.1
  let pP := wP.2.nextPink
  let p := pP.1
  let noise1 := pP.2
  let n := (1 - noiseColor) * w + noiseColor * p
  let osc1 := oscPhase + hz / st.sr
  let osc2 := if osc1 ≥ 1 then osc1 - 1 else osc1
  let sine := E.sin2pi osc2
  let resistanceMix := clampQ resist 0 1
  let excitation := n * (1 - (35/100) * resistanceMix) + sine * ((15/100) * sineAnchor)
  let drive := air * env1
  let x := excitation * drive
  let pbp : SVF := { st.pitchBP with cutoff := hz, res := 70/100 + (25/100) * resistanceMix }
  let f1m := (1 - form) * 750 + form * 450
  let f2m := (1 - form) * 1200 + form * 2000
  let track := clampQ (E.log2 (hz / 220) * (8/100)) (-(12/100)) (18/100)
  let f1 := f1m * E.pow2 track
  let f2 := f2m * E.pow2 track
  let f1bp : SVF := { st.form1BP with cutoff := clampQ f1 120 6000, res := 55/100 + (25/100) * resistanceMix }
  let f2bp : SVF := { st.form2BP with cutoff := clampQ f2 200 8000, res := 45/100 + (20/100) * resistanceMix }
  let rP := pbp.processSample E x
  let rF1 := f1bp.processSample E x
  let rF2 := f2bp.processSample E x
  let y0 := (70/100) * rP.1 + (40/100) * rF1.1 + (30/100) * rF2.1
  let hpHz := 40 + (1 - tone) * 120
  let lpHz := 4500 + tone * 11500
  let hpF : IIRFilt := { st.hp with coeffs := E.makeHighPass st.sr hpHz }
  let lpF : IIRFilt := { st.lp with coeffs := E.makeLowPass st.sr lpHz }
  let rHP := hpF.processSample y0
  let rLP := lpF.processSample rHP.1
  let y3 := E.softLimit (rLP.1 * (120/100 + (90/100) * resistanceMix))
  let y4 := y3 * outGain
  (y4,
   { st with
      phase := phase2, env := env1,
      meMW := me.2.1, meAT := me.2.2.1, mePB := me.2.2.2.1, mePitch := me.2.2.2.2,
      noise := noise1,
      pitchBP := rP.2, form1BP := rF1.2, form2BP := rF2.2,
      hp := rHP.2, lp := rLP.2,
      airS := airP.2, toneS := toneP.2, formantS := formP.2, resistS := resistP.2,
      vibrDepthS := vibrDepthP.2, vibrRateS := vibrRateP.2,
      noiseColorS := noiseColorP.2, sineAnchorS := sineAnchorP.2,
      motionSensS := motionSensP.2, outGainS := outGainP.2 },
   osc2)

/-- One full sample of `BreathLeadDSP::render`: the pipeline above
followed by the final safety clamp `y = std::clamp(y, -1, 1)`
(line 231). -/
def renderSample (E : Env) (st : BreathLeadDSP) (oscPhase : ℚ) : ℚ × BreathLeadDSP × ℚ :=
  let r := renderPre E st oscPhase
  (clampQ r.1 (-1) 1, r.2)

/-- The additive write of one rendered sample at buffer index `idx`:
`ch0[idx] += y` and likewise for every further channel (lines 234-236,
the same mono value into each channel). -/
def addAt (buf : List (List ℚ)) (idx : ℕ) (y : ℚ) : List (List ℚ) :=
  buf.map (fun ch => ch.set idx (ch.getD idx 0 + y))

/-- The per-sample loop of `BreathLeadDSP::render`: render `n` samples,
adding each into the buffer at consecutive indices starting at `idx`,
threading the object state and the static oscillator phase. -/
def renderLoop (E : Env) : ℕ → BreathLeadDSP → ℚ → List (List ℚ) → ℕ →
    BreathLeadDSP × ℚ × List (List ℚ)
  | 0, st, osc, buf, _ => (st, osc, buf)
  | n + 1, st, osc, buf, idx =>
    let r := renderSample E st osc
    renderLoop E n r.2.1 r.2.2 (addAt buf idx r.1) (idx + 1)

/-- `BreathLeadDSP::render(out, startSample, numSamples)`: the write
pointer of channel 0 is taken unconditionally before the loop
(line 112), so a buffer with zero channels is an out-of-bounds channel
access — modelled as `Except.error`; otherwise run the per-sample loop
from `startSample`. -/
def BreathLeadDSP.render (E : Env) (st : BreathLeadDSP) (oscPhase : ℚ)
    (buf : List (List ℚ)) (startSample numSamples : ℕ) :
    Except Unit (BreathLeadDSP × ℚ × List (List ℚ)) :=
  if buf.length = 0 then .error ()
  else .ok (renderLoop E numSamples st oscPhase buf startSample)

/-- The sequence of mono samples a call to `render` adds into the buffer
(one value per sample, identical across channels). -/
def renderSamples (E : Env) : ℕ → BreathLeadDSP → ℚ → List ℚ
  | 0, _, _ => []
  | n + 1, st, osc =>
    (renderSample E st osc).1 ::
      renderSamples E n (renderSample E st osc).2.1 (renderSample E st osc).2.2

/-- `midiToHz` (BreathLeadVoice.cpp, lines 13-16):
`440 * pow(2, (midiNote - 69) / 12)`. -/
def midiToHz (E : Env) (midiNote : ℤ) : ℚ :=
  440 * E.pow2 (((midiNote : ℚ) - 69) / 12)

/-- `BreathLeadVoice` state: glide bookkeeping, the cached controller
values, the JUCE base-class activity flag (`isVoiceActive`, maintained by
the surrounding synthesiser) and the owned DSP core.  The header is not in
`src/`; members and their use are taken from the `.cpp`. -/
structure BreathLeadVoice where
  sr : ℚ
  portamentoMs : ℚ
  glideCoeff : ℚ
  currentHz : ℚ
  targetHz : ℚ
  active : Bool
  pitchBendNorm : ℚ
  modWheel01 : ℚ
  aftertouch01 : ℚ
  dsp : BreathLeadDSP

/-- `BreathLeadVoice::startNote` (lines 42-50): set the target pitch from
the MIDI note; snap `currentHz` to it only when the voice is not already
active (glide between notes otherwise); open the gate and pass the
clamped velocity to the DSP. -/
def BreathLeadVoice.startNote (E : Env) (v : BreathLeadVoice)
    (midiNoteNumber : ℤ) (vel : ℚ) : BreathLeadVoice :=
  let tHz := midiToHz E midiNoteNumber
  let cHz := if v.active then v.currentHz else tHz
  { v with targetHz := tHz, currentHz := cHz,
           dsp := (v.dsp.setGate true).setVelocity (clampQ vel 0 1) }

/-- `BreathLeadVoice::stopNote`: close the gate (tail-off keeps the voice
marked active; an immediate stop clears the current note). -/
def BreathLeadVoice.stopNote (v : BreathLeadVoice) (allowTailOff : Bool) : BreathLeadVoice :=
  let v1 := { v with dsp := v.dsp.setGate false }
  if allowTailOff then v1 else { v1 with active := false }

/-- The body of the per-sample loop of `BreathLeadVoice::renderNextBlock`
(lines 111-119): advance the glide
`currentHz = targetHz + glideCoeff * (currentHz - targetHz)`, push the
pitch into the DSP, render one sample. -/
def BreathLeadVoice.renderSampleStep (E : Env) (v : BreathLeadVoice) (oscPhase : ℚ) :
    BreathLeadVoice × ℚ × ℚ :=
  let cHz := v.targetHz + v.glideCoeff * (v.currentHz - v.targetHz)
  let d1 := v.dsp.setPitchHz cHz
  let r := renderSample E d1 oscPhase
  ({ v with currentHz := cHz, dsp := r.2.1 }, r.2.2, r.1)

/-- The sample loop of `BreathLeadVoice::renderNextBlock`: each iteration
renders one sample through a one-sample window of the output buffer, so
the zero-channel check of `BreathLeadDSP::render` happens per sample. -/
def renderBlockLoop (E : Env) : ℕ → BreathLeadVoice → ℚ → List (List ℚ) → ℕ →
    Except Unit (BreathLeadVoice × ℚ × List (List ℚ))
  | 0, v, osc, buf, _ => .ok (v, osc, buf)
  | n + 1, v, osc, buf, idx =>
    if buf.length = 0 then .error ()
    else
      let r := v.renderSampleStep E osc
      renderBlockLoop E n r.1 r.2.1 (addAt buf idx r.2.2) (idx + 1)

/-- `BreathLeadVoice::renderNextBlock` (lines 104-120): push the current
parameter set into the DSP (`updateParamsFromAPVTS`), recompute the glide
coefficient from the portamento time (floored at 1 ms), then run the
per-sample loop from `startSample`. -/
def BreathLeadVoice.renderNextBlock (E : Env) (v : BreathLeadVoice) (p : ParamSet)
    (oscPhase : ℚ) (buf : List (List ℚ)) (startSample numSamples : ℕ) :
    Except Unit (BreathLeadVoice × ℚ × List (List ℚ)) :=
  let v1 := { v with dsp := v.dsp.setParams E p,
                     glideCoeff := coeffFromMs E v.sr (max 1 v.portamentoMs) }
  renderBlockLoop E numSamples v1 oscPhase buf startSample

/-- Modelled from the spec: the initial member values of `BreathLeadDSP`
(its header, which carries the initialisers, is not in `src/`); every
control starts neutral and every piece of running state starts cleared, as
§3 requires of freshly constructed per-voice state.  `prepare` overwrites
everything that any claim depends on. -/
def initDSP : BreathLeadDSP :=
  { sr := 0, gate := false, phase := 0, env := 0,
    pitchHz := 440, velocity := 0, modWheel := 0, aftertouch := 0, pitchBend := 0,
    motionSustainEnabled := false, envA := 0, envR := 0,
    pitchBP := ⟨0, 0, 0, 0⟩, form1BP := ⟨0, 0, 0, 0⟩, form2BP := ⟨0, 0, 0, 0⟩,
    hp := ⟨⟨0, 0, 0, 0, 0⟩, 0, 0⟩, lp := ⟨⟨0, 0, 0, 0, 0⟩, 0, 0⟩,
    noise := ⟨0, 0⟩,
    meMW := ⟨0, 0⟩, meAT := ⟨0, 0⟩, mePB := ⟨0, 0⟩, mePitch := ⟨0, 0⟩,
    airS := ⟨0, 0, 0, 0, 0⟩, toneS := ⟨0, 0, 0, 0, 0⟩,
    formantS := ⟨0, 0, 0, 0, 0⟩, resistS := ⟨0, 0, 0, 0, 0⟩,
    vibrDepthS := ⟨0, 0, 0, 0, 0⟩, vibrRateS := ⟨0, 0, 0, 0, 0⟩,
    noiseColorS := ⟨0, 0, 0, 0, 0⟩, sineAnchorS := ⟨0, 0, 0, 0, 0⟩,
    motionSensS := ⟨0, 0, 0, 0, 0⟩, outGainS := ⟨0, 0, 0, 0, 0⟩ }

/-- A concrete, fully computable environment used to evaluate the model at
specific inputs: simple deterministic stand-ins for the transcendental
kernels (`exp` constantly `1/2`, `sin2pi` the identity on the phase,
`pow2`/`pow10` constantly `1`, `log2` constantly `0`), pass-through filter
kernels and an identity soft limiter. -/
def testEnv : Env :=
  { exp := fun _ => 1/2,
    sin2pi := fun x => x,
    pow2 := fun _ => 1,
    log2 := fun _ => 0,
    pow10 := fun _ => 1,
    softLimit := fun x => x,
    makeHighPass := fun _ _ => ⟨1, 0, 0, 0, 0⟩,
    makeLowPass := fun _ _ => ⟨1, 0, 0, 0, 0⟩,
    svfProcess := fun _ _ s1 s2 x => (x, s1, s2) }

/-- The parameter set used by the concrete determinism experiment: full
air, audible sine anchor, motion sustain off, unit output gain. -/
def pRun : ParamSet :=
  { air := 1, tone := 1/2, formant := 1/2, resistance := 0,
    vibrDepth := 0, vibrRateHz := 1, noiseColor := 0, sineAnchor := 1,
    motionSustain := false, motionSensitivity := 0,
    attackMs := 10, releaseMs := 80, outputGainDb := 0 }

/-- The DSP state after one fixed sequence of lifecycle and control
calls: `prepare(48000, 512, 2)`, `setGate(true)`, `setVelocity(1)`,
`setPitchHz(440)`, `setParams(pRun)`. -/
def dRun : BreathLeadDSP :=
  BreathLeadDSP.setParams testEnv
    ((((initDSP.prepare testEnv 48000 512 2).setGate true).setVelocity 1).setPitchHz 440)
    pRun

/-- One complete run of the fixed call sequence followed by
`render(buf, 0, 1)` on a fresh one-channel buffer, starting from a given
value of the function-local static `oscPhase`.  Returns the single output
sample and the value the static holds afterwards. -/
def runOnce (oscPhase : ℚ) : ℚ × ℚ :=
  match BreathLeadDSP.render testEnv dRun oscPhase [[0]] 0 1 with
  | .ok r => (((r.2.2.getD 0 []).getD 0 0), r.2.1)
  | .error _ => (2, oscPhase)

/-- The machine state visible to `reset`: the object state together with
the function-local static `oscPhase`, which `reset` cannot reach. -/
def resetMachine (m : BreathLeadDSP × ℚ) : BreathLeadDSP × ℚ :=
  (m.1.reset, m.2)

/-- The machine state (object state, static oscillator phase) after the
fixed call sequence of `dRun` and one rendered sample, starting from a
fresh process (static `oscPhase = 0`). -/
def mRun : BreathLeadDSP × ℚ :=
  match BreathLeadDSP.render testEnv dRun 0 [[0]] 0 1 with
  | .ok r => (r.1, r.2.1)
  | .error _ => (dRun, 0)

/-- A voice value used to evaluate the model at concrete inputs. -/
def testVoice : BreathLeadVoice :=
  { sr := 48000, portamentoMs := 35, glideCoeff := 1/2, currentHz := 330, targetHz := 220,
    active := true, pitchBendNorm := 0, modWheel01 := 0, aftertouch01 := 0, dsp := initDSP }

theorem clampQ_bounds (x lo hi : ℚ) (h : lo ≤ hi) :
    lo ≤ clampQ x lo hi ∧ clampQ x lo hi ≤ hi := by
  unfold clampQ
  split_ifs with h1 h2
  · exact ⟨le_refl lo, h⟩
  · exact ⟨h, le_refl hi⟩
  · exact ⟨le_of_not_lt h1, le_of_not_lt h2⟩

theorem min_one_eq_clampQ (x : ℚ) (hx : 0 ≤ x) : min 1 x = clampQ x 0 1 := by
  unfold clampQ
  split_ifs with h1 h2
  · exact absurd h1 (not_lt.mpr hx)
  · exact min_eq_left (le_of_lt h2)
  · exact min_eq_right (not_lt.mp h2)

theorem MotionEst.process_nonneg (m : MotionEst) (v sens : ℚ) :
    0 ≤ (m.process v sens).1 :=
  (clampQ_bounds ((1/2) * m.energy + |v - m.prev| * sens) 0 1 (by norm_num)).1

theorem envStep_approach (A R T e : ℚ) (hA0 : 0 ≤ A) (hA1 : A ≤ 1)
    (hR0 : 0 ≤ R) (hR1 : R ≤ 1) (he : e ≤ T) :
    e ≤ envStep A R T e ∧ envStep A R T e ≤ T ∧
      T - envStep A R T e ≤ A * (T - e) := by
  unfold envStep
  by_cases h : T > e
  · simp only [if_pos h]
    refine ⟨by nlinarith, by nlinarith, by nlinarith⟩
  · have he2 : e = T := le_antisymm he (not_lt.mp h)
    subst he2
    simp only [if_neg h]
    refine ⟨by nlinarith, by nlinarith, by nlinarith⟩

theorem envStep_decay_eq (A R e : ℚ) (he : 0 ≤ e) : envStep A R 0 e = R * e := by
  unfold envStep
  have h : ¬((0 : ℚ) > e) := not_lt.mpr he
  simp only [if_neg h]
  ring

/-- C1: every sample value the render loop adds into the output buffer is
the pipeline result hard-clamped to `[-1, 1]`: after saturation and the
smoothed output gain, the per-sample value is `std::clamp(y, -1, 1)` and
therefore lies within `[-1, 1]`, for every state, environment and static
oscillator phase. -/
theorem render_sample_hard_clamped (E : Env) (st : BreathLeadDSP) (oscPhase : ℚ) :
    (renderSample E st oscPhase).1 = clampQ (renderPre E st oscPhase).1 (-1) 1 ∧
    -1 ≤ (renderSample E st oscPhase).1 ∧ (renderSample E st oscPhase).1 ≤ 1 := by
  have he : (renderSample E st oscPhase).1 = clampQ (renderPre E st oscPhase).1 (-1) 1 := rfl
  have h := clampQ_bounds (renderPre E st oscPhase).1 (-1) 1 (by norm_num)
  exact ⟨he, by rw [he]; exact h.1, by rw [he]; exact h.2⟩

/-- C2: the breath envelope follows the asymmetric one-pole rule
`envStep`; iterating it with a constant target `T` from a start below `T`
is monotonically non-decreasing, never overshoots `T`, and contracts the
distance to `T` by the attack coefficient each sample; iterating it with
target `0` (gate off) is monotonically non-increasing, stays non-negative,
and shrinks geometrically by the release coefficient each sample. -/
theorem breath_envelope_follower (A R T e0 : ℚ) (hA0 : 0 < A) (hA1 : A < 1)
    (hR0 : 0 < R) (hR1 : R < 1) (he0 : 0 ≤ e0) (heT : e0 ≤ T) :
    (∀ k, (envStep A R T)^[k] e0 ≤ (envStep A R T)^[k + 1] e0) ∧
    (∀ k, (envStep A R T)^[k] e0 ≤ T) ∧
    (∀ k, T - (envStep A R T)^[k + 1] e0 ≤ A * (T - (envStep A R T)^[k] e0)) ∧
    (∀ k, (envStep A R 0)^[k + 1] e0 ≤ (envStep A R 0)^[k] e0) ∧
    (∀ k, 0 ≤ (envStep A R 0)^[k] e0) ∧
    (∀ k, (envStep A R 0)^[k + 1] e0 = R * (envStep A R 0)^[k] e0) := by
  have hub : ∀ k, (envStep A R T)^[k] e0 ≤ T := by
    intro k
    induction k with
    | zero => simpa using heT
    | succ n ih =>
      rw [Function.iterate_succ_apply']
      exact (envStep_approach A R T _ hA0.le hA1.le hR0.le hR1.le ih).2.1
  have hnn : ∀ k, 0 ≤ (envStep A R 0)^[k] e0 := by
    intro k
    induction k with
    | zero => simpa using he0
    | succ n ih =>
      rw [Function.iterate_succ_apply', envStep_decay_eq A R _ ih]
      exact mul_nonneg hR0.le ih
  refine ⟨?_, hub, ?_, ?_, hnn, ?_⟩
  · intro k
    rw [Function.iterate_succ_apply']
    exact (envStep_approach A R T _ hA0.le hA1.le hR0.le hR1.le (hub k)).1
  · intro k
    rw [Function.iterate_succ_apply']
    exact (envStep_approach A R T _ hA0.le hA1.le hR0.le hR1.le (hub k)).2.2
  · intro k
    rw [Function.iterate_succ_apply', envStep_decay_eq A R _ (hnn k)]
    nlinarith [hnn k]
  · intro k
    rw [Function.iterate_succ_apply', envStep_decay_eq A R _ (hnn k)]

/-- C2 witness: the envelope follower applied at the concrete
coefficients `A = R = 1/2`, target `1`, start `0`. -/
theorem breath_envelope_follower_witness :
    (0 : ℚ) < 1/2 ∧ (1/2 : ℚ) < 1 ∧ (0 : ℚ) ≤ 0 ∧ (0 : ℚ) ≤ 1 ∧
    ((envStep (1/2) (1/2) 1)^[1] 0 ≤ (envStep (1/2) (1/2) 1)^[1 + 1] 0) ∧
    ((envStep (1/2) (1/2) 1)^[2] 0 ≤ 1) ∧
    (0 ≤ (envStep (1/2) (1/2) 0)^[1] 0) := by
  refine ⟨by norm_num, by norm_num, le_refl 0, by norm_num, ?_, ?_, ?_⟩
  · exact (breath_envelope_follower (1/2) (1/2) 1 0 (by norm_num) (by norm_num)
      (by norm_num) (by norm_num) (le_refl 0) (by norm_num)).1 1
  · exact (breath_envelope_follower (1/2) (1/2) 1 0 (by norm_num) (by norm_num)
      (by norm_num) (by norm_num) (le_refl 0) (by norm_num)).2.1 2
  · exact (breath_envelope_follower (1/2) (1/2) 1 0 (by norm_num) (by norm_num)
      (by norm_num) (by norm_num) (le_refl 0) (by norm_num)).2.2.2.2.1 1

/-- C7: every rendered sample recomputes the tone-shaping corners from
that sample's smoothed tone value — highpass corner
`40 + (1 - tone) * 120` Hz, lowpass corner `4500 + tone * 11500` Hz — and
installs coefficients freshly derived from those corners into the
high/low-pass filters. -/
theorem tone_corners_recomputed_per_sample (E : Env) (st : BreathLeadDSP) (oscPhase : ℚ) :
    (renderSample E st oscPhase).2.1.hp.coeffs =
      E.makeHighPass st.sr (40 + (1 - (st.toneS.getNextValue).1) * 120) ∧
    (renderSample E st oscPhase).2.1.lp.coeffs =
      E.makeLowPass st.sr (4500 + (st.toneS.getNextValue).1 * 11500) :=
  ⟨rfl, rfl⟩

/-- C3: `startNote` on an already active voice leaves `currentHz`
unchanged (glide from the prior pitch); on an inactive voice it snaps
`currentHz` to `targetHz`; and each rendered sample advances the pitch by
`currentHz = targetHz + glideCoeff * (currentHz - targetHz)`. -/
theorem glide_note_start_and_step (E : Env) (v : BreathLeadVoice)
    (midiNoteNumber : ℤ) (vel oscPhase : ℚ) :
    (v.active = true → (v.startNote E midiNoteNumber vel).currentHz = v.currentHz) ∧
    (v.active = false → (v.startNote E midiNoteNumber vel).currentHz =
      (v.startNote E midiNoteNumber vel).targetHz) ∧
    (v.renderSampleStep E oscPhase).1.currentHz =
      v.targetHz + v.glideCoeff * (v.currentHz - v.targetHz) := by
  refine ⟨?_, ?_, rfl⟩
  · intro h
    simp [BreathLeadVoice.startNote, h]
  · intro h
    simp [BreathLeadVoice.startNote, h]

/-- C3 witness: the glide behaviour evaluated on a concrete active voice
and on the same voice marked inactive. -/
theorem glide_note_start_and_step_witness :
    testVoice.active = true ∧
    (testVoice.startNote testEnv 69 1).currentHz = testVoice.currentHz ∧
    ({ testVoice with active := false }.startNote testEnv 69 1).currentHz =
      ({ testVoice with active := false }.startNote testEnv 69 1).targetHz := by
  refine ⟨rfl, ?_, ?_⟩
  · exact (glide_note_start_and_step testEnv testVoice 69 1 0).1 rfl
  · exact (glide_note_start_and_step testEnv { testVoice with active := false } 69 1 0).2.1 rfl

/-- C6: with motion sustain enabled the per-sample motion energy equals
the clamp to `[0, 1]` of the sum of the four estimator outputs — mod
wheel, aftertouch, pitch bend, and the pitch cue weighted by `1/2` (the
source computes `min(1, ·)`, which coincides with the `[0, 1]` clamp
because every estimator output is non-negative); with motion sustain
disabled the motion energy is `0`. -/
theorem motion_energy_combine (st : BreathLeadDSP) (motionSens hz : ℚ) :
    (st.motionSustainEnabled = true →
      (motionEnergy st motionSens hz).1 =
        clampQ ((st.meMW.process st.modWheel motionSens).1
          + (st.meAT.process st.aftertouch motionSens).1
          + (st.mePB.process st.pitchBend motionSens).1
          + (1/2) * (st.mePitch.process (hz / 2000) motionSens).1) 0 1) ∧
    (st.motionSustainEnabled = false → (motionEnergy st motionSens hz).1 = 0) := by
  constructor
  · intro h
    have h1 := MotionEst.process_nonneg st.meMW st.modWheel motionSens
    have h2 := MotionEst.process_nonneg st.meAT st.aftertouch motionSens
    have h3 := MotionEst.process_nonneg st.mePB st.pitchBend motionSens
    have h4 := MotionEst.process_nonneg st.mePitch (hz / 2000) motionSens
    have hsum : 0 ≤ (st.meMW.process st.modWheel motionSens).1
        + (st.meAT.process st.aftertouch motionSens).1
        + (st.mePB.process st.pitchBend motionSens).1
        + (1/2) * (st.mePitch.process (hz / 2000) motionSens).1 := by positivity
    simp only [motionEnergy, h, if_true]
    exact min_one_eq_clampQ _ hsum
  · intro h
    simp [motionEnergy, h]

/-- C6 witness: the motion-energy combination evaluated with motion
sustain enabled and disabled on concrete states. -/
theorem motion_energy_combine_witness :
    ({ initDSP with motionSustainEnabled := true } : BreathLeadDSP).motionSustainEnabled = true ∧
    (motionEnergy { initDSP with motionSustainEnabled := true } 0 440).1 =
      clampQ ((({ initDSP with motionSustainEnabled := true } :
            BreathLeadDSP).meMW.process
            ({ initDSP with motionSustainEnabled := true } : BreathLeadDSP).modWheel 0).1
        + (({ initDSP with motionSustainEnabled := true } :
            BreathLeadDSP).meAT.process
            ({ initDSP with motionSustainEnabled := true } : BreathLeadDSP).aftertouch 0).1
        + (({ initDSP with motionSustainEnabled := true } :
            BreathLeadDSP).mePB.process
            ({ initDSP with motionSustainEnabled := true } : BreathLeadDSP).pitchBend 0).1
        + (1/2) * (({ initDSP with motionSustainEnabled := true } :
            BreathLeadDSP).mePitch.process (440 / 2000) 0).1) 0 1 ∧
    initDSP.motionSustainEnabled = false ∧
    (motionEnergy initDSP 0 440).1 = 0 := by
  refine ⟨rfl, ?_, rfl, ?_⟩
  · exact (motion_energy_combine { initDSP with motionSustainEnabled := true } 0 440).1 rfl
  · exact (motion_energy_combine initDSP 0 440).2 rfl

/-- C10: `startNote` sets the target pitch through `midiToHz`, which maps
MIDI note `n` to `440 * 2^((n - 69) / 12)` Hz: note 69 maps to exactly
440 Hz and each semitone step multiplies the frequency by `2^(1/12)`
(stated for any exponential kernel, i.e. any `pow2` with `pow2 0 = 1` and
`pow2 (a + b) = pow2 a * pow2 b`). -/
theorem midi_note_to_hz (E : Env) (h0 : E.pow2 0 = 1)
    (hadd : ∀ a b : ℚ, E.pow2 (a + b) = E.pow2 a * E.pow2 b) :
    midiToHz E 69 = 440 ∧
    (∀ n : ℤ, midiToHz E (n + 1) = E.pow2 (1/12) * midiToHz E n) ∧
    (∀ (v : BreathLeadVoice) (note : ℤ) (vel : ℚ),
      (v.startNote E note vel).targetHz = midiToHz E note) := by
  refine ⟨?_, ?_, fun v note vel => rfl⟩
  · unfold midiToHz
    have harg : ((((69 : ℤ) : ℚ)) - 69) / 12 = 0 := by norm_num
    rw [harg, h0]
    norm_num
  · intro n
    unfold midiToHz
    have harg : ((((n + 1 : ℤ)) : ℚ) - 69) / 12 = 1/12 + (((n : ℤ) : ℚ) - 69) / 12 := by
      push_cast
      ring
    rw [harg, hadd]
    ring

/-- C10 witness: the MIDI mapping evaluated in the concrete environment
(whose `pow2` is the constant exponential kernel `1`). -/
theorem midi_note_to_hz_witness :
    testEnv.pow2 0 = 1 ∧
    midiToHz testEnv 69 = 440 ∧
    midiToHz testEnv (69 + 1) = testEnv.pow2 (1/12) * midiToHz testEnv 69 ∧
    (testVoice.startNote testEnv 60 1).targetHz = midiToHz testEnv 60 := by
  have h0 : testEnv.pow2 0 = 1 := rfl
  have hadd : ∀ a b : ℚ, testEnv.pow2 (a + b) = testEnv.pow2 a * testEnv.pow2 b := by
    intro a b
    show (1 : ℚ) = 1 * 1
    norm_num
  exact ⟨h0, (midi_note_to_hz testEnv h0 hadd).1,
    (midi_note_to_hz testEnv h0 hadd).2.1 69,
    (midi_note_to_hz testEnv h0 hadd).2.2 testVoice 60 1⟩

theorem getD_set_q (ch : List ℚ) (i j : ℕ) (v : ℚ) :
    (ch.set i v).getD j 0 = if j = i ∧ i < ch.length then v else ch.getD j 0 := by
  induction ch generalizing i j with
  | nil =>
    simp
  | cons a t ih =>
    cases i with
    | zero =>
      cases j with
      | zero => simp
      | succ j' => simp
    | succ i' =>
      cases j with
      | zero => simp
      | succ j' =>
        simp only [List.set_cons_succ, List.getD_cons_succ, List.length_cons, ih i' j']
        by_cases hc : j' = i' ∧ i' < t.length
        · rw [if_pos hc, if_pos ⟨by omega, by omega⟩]
        · rw [if_neg hc, if_neg (by omega)]

theorem addAt_length (buf : List (List ℚ)) (idx : ℕ) (y : ℚ) :
    (addAt buf idx y).length = buf.length := by
  simp [addAt]

theorem addAt_getD (buf : List (List ℚ)) (idx : ℕ) (y : ℚ) (c : ℕ) :
    (addAt buf idx y).getD c [] =
      (buf.getD c []).set idx ((buf.getD c []).getD idx 0 + y) := by
  induction buf generalizing c with
  | nil => simp [addAt]
  | cons ch t ih =>
    cases c with
    | zero => simp [addAt]
    | succ c' =>
      simp only [addAt, List.map_cons, List.getD_cons_succ]
      exact ih c'

theorem renderLoop_spec (E : Env) (n : ℕ) :
    ∀ (st : BreathLeadDSP) (osc : ℚ) (buf : List (List ℚ)) (idx : ℕ),
    (renderLoop E n st osc buf idx).2.2.length = buf.length ∧
    (∀ c, ((renderLoop E n st osc buf idx).2.2.getD c []).length = (buf.getD c []).length) ∧
    (∀ c j, ((renderLoop E n st osc buf idx).2.2.getD c []).getD j 0 =
      if idx ≤ j ∧ j < idx + n ∧ j < (buf.getD c []).length
      then (buf.getD c []).getD j 0 + (renderSamples E n st osc).getD (j - idx) 0
      else (buf.getD c []).getD j 0) := by
  induction n with
  | zero =>
    intro st osc buf idx
    refine ⟨rfl, fun c => rfl, fun c j => ?_⟩
    have hcond : ¬(idx ≤ j ∧ j < idx + 0 ∧ j < (buf.getD c []).length) := by omega
    rw [if_neg hcond]
    rfl
  | succ n ih =>
    intro st osc buf idx
    have hstep : renderLoop E (n + 1) st osc buf idx =
        renderLoop E n (renderSample E st osc).2.1 (renderSample E st osc).2.2
          (addAt buf idx (renderSample E st osc).1) (idx + 1) := rfl
    have hys : renderSamples E (n + 1) st osc =
        (renderSample E st osc).1 ::
          renderSamples E n (renderSample E st osc).2.1 (renderSample E st osc).2.2 := rfl
    obtain ⟨hl, hcl, hpt⟩ := ih (renderSample E st osc).2.1 (renderSample E st osc).2.2
      (addAt buf idx (renderSample E st osc).1) (idx + 1)
    rw [hstep]
    refine ⟨by rw [hl, addAt_length], ?_, ?_⟩
    · intro c
      rw [hcl c, addAt_getD, List.length_set]
    · intro c j
      rw [hpt c j, addAt_getD, List.length_set, getD_set_q, hys]
      by_cases hj : j = idx
      · subst hj
        have hA : ¬(j + 1 ≤ j ∧ j < j + 1 + n ∧ j < (buf.getD c []).length) := by omega
        rw [if_neg hA]
        by_cases hlen : j < (buf.getD c []).length
        · have hB : j = j ∧ j < (buf.getD c []).length := ⟨rfl, hlen⟩
          rw [if_pos hB]
          have hC : j ≤ j ∧ j < j + (n + 1) ∧ j < (buf.getD c []).length :=
            ⟨le_refl j, by omega, hlen⟩
          rw [if_pos hC, Nat.sub_self, List.getD_cons_zero]
        · have hB : ¬(j = j ∧ j < (buf.getD c []).length) := by omega
          have hC : ¬(j ≤ j ∧ j < j + (n + 1) ∧ j < (buf.getD c []).length) := by omega
          rw [if_neg hB, if_neg hC]
      · by_cases hreg : idx + 1 ≤ j ∧ j < idx + 1 + n ∧ j < (buf.getD c []).length
        · rw [if_pos hreg]
          have hB : ¬(j = idx ∧ idx < (buf.getD c []).length) := by omega
          rw [if_neg hB]
          have hC : idx ≤ j ∧ j < idx + (n + 1) ∧ j < (buf.getD c []).length := by omega
          rw [if_pos hC]
          have hsub : j - idx = (j - (idx + 1)) + 1 := by omega
          rw [hsub, List.getD_cons_succ]
        · have hB : ¬(j = idx ∧ idx < (buf.getD c []).length) := by omega
          rw [if_neg hreg, if_neg hB]
          have hC : ¬(idx ≤ j ∧ j < idx + (n + 1) ∧ j < (buf.getD c []).length) := by omega
          rw [if_neg hC]

/-- C8: `render(out, startSample, numSamples)` completes on any buffer
with at least one channel, preserves the shape of the buffer, adds (never
overwrites) the same mono sample sequence `renderSamples` into every
channel at indices `[startSample, startSample + numSamples)`, and leaves
every entry outside that region unchanged. -/
theorem render_additive_frame (E : Env) (st : BreathLeadDSP) (osc : ℚ)
    (buf : List (List ℚ)) (startSample numSamples : ℕ) (hbuf : buf.length ≠ 0) :
    BreathLeadDSP.render E st osc buf startSample numSamples =
      Except.ok (renderLoop E numSamples st osc buf startSample) ∧
    (renderLoop E numSamples st osc buf startSample).2.2.length = buf.length ∧
    (∀ c, ((renderLoop E numSamples st osc buf startSample).2.2.getD c []).length =
      (buf.getD c []).length) ∧
    (∀ c j, ((renderLoop E numSamples st osc buf startSample).2.2.getD c []).getD j 0 =
      if startSample ≤ j ∧ j < startSample + numSamples ∧ j < (buf.getD c []).length
      then (buf.getD c []).getD j 0 + (renderSamples E numSamples st osc).getD (j - startSample) 0
      else (buf.getD c []).getD j 0) := by
  obtain ⟨h1, h2, h3⟩ := renderLoop_spec E numSamples st osc buf startSample
  refine ⟨?_, h1, h2, h3⟩
  unfold BreathLeadDSP.render
  rw [if_neg hbuf]

/-- C8 witness: one rendered sample added at index 0 of a fresh
one-channel buffer equals `0 +` the mono sample, via the frame theorem at
concrete inputs. -/
theorem render_additive_frame_witness :
    ([[(0 : ℚ)]] : List (List ℚ)).length ≠ 0 ∧
    ((renderLoop testEnv 1 initDSP 0 [[(0 : ℚ)]] 0).2.2.getD 0 []).getD 0 0 =
      (0 : ℚ) + (renderSamples testEnv 1 initDSP 0).getD 0 0 := by
  refine ⟨by norm_num, ?_⟩
  have h := (render_additive_frame testEnv initDSP 0 [[(0 : ℚ)]] 0 1 (by norm_num)).2.2.2 0 0
  simpa using h

/-- C4: determinism across runs fails because of the function-local
`static float oscPhase` in `BreathLeadDSP::render`.  Two runs of the
identical call sequence (`prepare(48000, 512, 2)`, `setGate(true)`,
`setVelocity(1)`, `setPitchHz(440)`, `setParams`, then one rendered
sample) produce different output samples when executed back to back,
because the first run leaves the shared static oscillator phase at
`11/1200` and `prepare` cannot reset it: the second run's first sample
differs from the first run's. -/
theorem identical_runs_differ_via_static_phase :
    (runOnce 0).2 = 11/1200 ∧ (runOnce 0).1 ≠ (runOnce (runOnce 0).2).1 := by
  constructor
  · norm_num [runOnce, dRun, pRun, initDSP, testEnv, BreathLeadDSP.prepare, BreathLeadDSP.reset,
      BreathLeadDSP.setGate, BreathLeadDSP.setVelocity, BreathLeadDSP.setPitchHz,
      BreathLeadDSP.setParams, BreathLeadDSP.render, Smoothed.reset, Smoothed.setTargetValue,
      Smoothed.getNextValue, coeffFromMs, dbToLin, midiToHzClamp, clampQ, motionEnergy, envStep,
      MotionEst.reset, NoiseGen.reset, NoiseGen.nextWhite, NoiseGen.nextPink, lcgStep,
      IIRFilt.processSample, SVF.processSample, renderPre, renderSample, renderLoop, addAt,
      Int.toNat]
  · norm_num [runOnce, dRun, pRun, initDSP, testEnv, BreathLeadDSP.prepare, BreathLeadDSP.reset,
      BreathLeadDSP.setGate, BreathLeadDSP.setVelocity, BreathLeadDSP.setPitchHz,
      BreathLeadDSP.setParams, BreathLeadDSP.render, Smoothed.reset, Smoothed.setTargetValue,
      Smoothed.getNextValue, coeffFromMs, dbToLin, midiToHzClamp, clampQ, motionEnergy, envStep,
      MotionEst.reset, NoiseGen.reset, NoiseGen.nextWhite, NoiseGen.nextPink, lcgStep,
      IIRFilt.processSample, SVF.processSample, renderPre, renderSample, renderLoop, addAt,
      Int.toNat]

/-- C5: `reset()` zeroes the envelope, the vibrato phase, every filter
register and every motion estimator of the object — but it cannot reach
the sine-anchor oscillator phase, which is a function-local static in
`render`: after the concrete run of `mRun` (one rendered sample at
440 Hz / 48 kHz) the static phase is `11/1200`, and it still is `11/1200`
after `reset()`, not `0`. -/
theorem reset_leaves_static_oscillator_phase :
    (resetMachine mRun).1.env = 0 ∧
    (resetMachine mRun).1.phase = 0 ∧
    (resetMachine mRun).1.gate = false ∧
    (resetMachine mRun).1.pitchBP.s1 = 0 ∧ (resetMachine mRun).1.pitchBP.s2 = 0 ∧
    (resetMachine mRun).1.form1BP.s1 = 0 ∧ (resetMachine mRun).1.form1BP.s2 = 0 ∧
    (resetMachine mRun).1.form2BP.s1 = 0 ∧ (resetMachine mRun).1.form2BP.s2 = 0 ∧
    (resetMachine mRun).1.hp.s1 = 0 ∧ (resetMachine mRun).1.hp.s2 = 0 ∧
    (resetMachine mRun).1.lp.s1 = 0 ∧ (resetMachine mRun).1.lp.s2 = 0 ∧
    (resetMachine mRun).1.meMW.energy = 0 ∧ (resetMachine mRun).1.meAT.energy = 0 ∧
    (resetMachine mRun).1.mePB.energy = 0 ∧ (resetMachine mRun).1.mePitch.energy = 0 ∧
    (resetMachine mRun).2 = mRun.2 ∧
    mRun.2 = 11/1200 ∧ (11/1200 : ℚ) ≠ 0 := by
  refine ⟨rfl, rfl, rfl, rfl, rfl, rfl, rfl, rfl, rfl, rfl, rfl, rfl, rfl, rfl, rfl, rfl, rfl,
    rfl, ?_, by norm_num⟩
  norm_num [mRun, dRun, pRun, initDSP, testEnv, BreathLeadDSP.prepare, BreathLeadDSP.reset,
    BreathLeadDSP.setGate, BreathLeadDSP.setVelocity, BreathLeadDSP.setPitchHz,
    BreathLeadDSP.setParams, BreathLeadDSP.render, Smoothed.reset, Smoothed.setTargetValue,
    Smoothed.getNextValue, coeffFromMs, dbToLin, midiToHzClamp, clampQ, motionEnergy, envStep,
    MotionEst.reset, NoiseGen.reset, NoiseGen.nextWhite, NoiseGen.nextPink, lcgStep,
    IIRFilt.processSample, SVF.processSample, renderPre, renderSample, renderLoop, addAt,
    Int.toNat]

/-- C9: a render call on a buffer with zero channels does not degrade
gracefully: the source takes the channel-0 write pointer before the loop
and stores through it, an out-of-bounds channel access on a zero-channel
buffer, modelled as `Except.error` — for the concrete prepared state and
for every state, environment and region. -/
theorem zero_channel_render_is_out_of_bounds :
    BreathLeadDSP.render testEnv initDSP 0 ([] : List (List ℚ)) 0 1 = Except.error () ∧
    ∀ (E : Env) (st : BreathLeadDSP) (osc : ℚ) (startSample numSamples : ℕ),
      BreathLeadDSP.render E st osc ([] : List (List ℚ)) startSample numSamples =
        Except.error () :=
  ⟨rfl, fun _ _ _ _ _ => rfl⟩
